import Mathlib

/-!
Verification of the cursor2api gateway core against its specification.

This file shallowly embeds the parts of the Go sources that the checked
claims are about:

* `utils/tool_matcher.go` — tool-name normalization and fuzzy matching;
* `utils/converter.go` — the OpenAI → Cursor message converter, request
  builder and token estimation (the `github.com/gopkg-dev/cursor2api` tree);
* `service/cursor.go` — the SSE line decoder, the event-routing loops of
  `Chat` and `StreamChat`, and the cancellable `contextReader`;
* `handler/chat_stream.go` — the streaming OpenAI response shaper;
* `models/manager_refresh.go` and the `GetXIsHuman` accessor of the
  challenge-token manager — refresh retry loop and hard-expiry handling.

Go machine integers are modelled as `Nat` (all involved quantities are
non-negative counters, byte lengths, and second-granularity timestamps);
`len` of a Go string is its UTF-8 byte count, so it is modelled by
`String.utf8ByteSize`.  Wall-clock time is passed in explicitly as a `Nat`
number of seconds (respectively milliseconds where the source uses
`UnixMilli`).  Fallible HTTP steps are modelled by explicit outcome
parameters.  JSON values that the gateway only ever passes through
`json.Marshal` are modelled by their serialized form.
-/

/-- Field `Function` of `types.Tool` (src/types/health.go): only the `Name`
field takes part in tool-name matching; the free-text description and the
opaque JSON-schema parameters are not inspected by any embedded code and are
omitted. -/
structure FunctionDef where
  name : String
deriving DecidableEq, Repr

/-- `types.Tool` (src/types/health.go). -/
structure Tool where
  type : String
  function : FunctionDef
deriving DecidableEq, Repr

/-- `utils.NormalizeToolName` (src/utils/tool_matcher.go): replace every
underscore by a hyphen.  Go's `strings.ReplaceAll(name, "_", "-")` with
single-byte pattern and replacement is exactly a character map. -/
def NormalizeToolName (name : String) : String :=
  String.mk (name.data.map fun c => if c = '_' then '-' else c)

/-- `utils.FindToolByName` (src/utils/tool_matcher.go): first an exact pass
over the declared tools, then a pass comparing underscore-normalized names;
`none` when neither pass matches. -/
def FindToolByName (toolName : String) (tools : List Tool) : Option Tool :=
  match tools.find? (fun t => t.function.name == toolName) with
  | some t => some t
  | none =>
    tools.find? (fun t => NormalizeToolName t.function.name == NormalizeToolName toolName)

/-- The `correctedToolName` computation of `service/cursor.go` (both `Chat`
and `StreamChat`): the matched tool's declared name, or the upstream name
verbatim when no tool matches. -/
def resolveToolName (tools : List Tool) (toolName : String) : String :=
  match FindToolByName toolName tools with
  | some t => t.function.name
  | none => toolName

/-- `types.ChatMessage` (src/types/openai.go, the tree whose converter the
claims cite): role and content are plain strings. -/
structure ChatMessage where
  role : String
  content : String
deriving DecidableEq, Repr

/-- `(*MessageConverter).EstimateTokens` (src/utils/converter.go):
`(len(text) + 3) / 4` in Go integer arithmetic; `len` counts UTF-8 bytes. -/
def EstimateTokens (text : String) : Nat :=
  (text.utf8ByteSize + 3) / 4

/-- `(*MessageConverter).EstimateMessagesTokens` (src/utils/converter.go):
a running total over the messages, mirroring the Go `for` loop. -/
def EstimateMessagesTokens (messages : List ChatMessage) : Nat :=
  messages.foldl (fun total msg => total + EstimateTokens msg.content) 0

/-- The `usage` metadata block attached to assistant messages
(src/utils/converter.go). -/
structure UsageBlock where
  inputTokens : Nat
  outputTokens : Nat
  totalTokens : Nat
  cachedInputTokens : Nat
deriving DecidableEq, Repr

/-- One entry of the `parts` array of an upstream message
(src/utils/converter.go builds `{"type": "text", "text": content}`). -/
structure CursorMessagePart where
  type : String
  text : String
deriving DecidableEq, Repr

/-- One upstream message as built by `OpenAIToCursorMessages`
(src/utils/converter.go): the Go code builds a `map[string]any` with keys
`parts`, `id`, `role` and, for assistant messages only, `metadata`. -/
structure CursorMessage where
  parts : List CursorMessagePart
  id : String
  role : String
  metadata : Option UsageBlock
deriving DecidableEq, Repr

/-- The content computation for one message inside the loop of
`OpenAIToCursorMessages` (src/utils/converter.go lines 39-56): when the
message is a user message sitting at input index 0 and the configured system
prompt is non-empty, the content of the first system message (anywhere in
the input) and the prompt are prefixed; with no system message present the
prompt alone is prefixed; in every other case the content is unchanged. -/
def foldedContent (systemPrompt : String) (messages : List ChatMessage)
    (i : Nat) (msg : ChatMessage) : String :=
  if msg.role = "user" ∧ i = 0 ∧ systemPrompt ≠ "" then
    match messages.find? (fun m => m.role == "system") with
    | some m => m.content ++ "\n\n" ++ systemPrompt ++ "\n\n" ++ msg.content
    | none => systemPrompt ++ "\n\n" ++ msg.content
  else
    msg.content

/-- The indexed loop body of `OpenAIToCursorMessages`
(src/utils/converter.go lines 33-87): system messages are skipped (`continue`)
but still consume their input index; every emitted message carries a single
text part, the id `"msg-" ++ baseID ++ "-" ++ i` for its input index `i`, and
assistant messages additionally carry the usage estimate block. -/
def convertLoop (systemPrompt : String) (all : List ChatMessage)
    (baseID : String) : Nat → List ChatMessage → List CursorMessage
  | _, [] => []
  | i, msg :: rest =>
    if msg.role = "system" then
      convertLoop systemPrompt all baseID (i + 1) rest
    else
      { parts := [⟨"text", foldedContent systemPrompt all i msg⟩]
        id := "msg-" ++ baseID ++ "-" ++ toString i
        role := msg.role
        metadata :=
          if msg.role = "assistant" then
            some ⟨0, EstimateTokens msg.content, EstimateTokens msg.content, 0⟩
          else none } :: convertLoop systemPrompt all baseID (i + 1) rest

/-- `(*MessageConverter).OpenAIToCursorMessages` (src/utils/converter.go):
`nowMillis` stands for `time.Now().UnixMilli()`, used only when the supplied
conversation id is empty. -/
def OpenAIToCursorMessages (systemPrompt : String) (messages : List ChatMessage)
    (conversationID : String) (nowMillis : Nat) : List CursorMessage :=
  let baseID := if conversationID = "" then "chatcmpl-" ++ toString nowMillis
                else conversationID
  convertLoop systemPrompt messages baseID 0 messages

/-- The synthetic `context` entry of the upstream body
(src/utils/converter.go line 105). -/
structure ContextEntry where
  type : String
  content : String
  filePath : String
deriving DecidableEq, Repr

/-- The upstream request body built by `BuildCursorRequest`
(src/utils/converter.go lines 104-110), modelled structurally; the final
`json.Marshal` serialization is a bijective rendering of this record and is
not re-modelled. -/
structure CursorRequest where
  context : List ContextEntry
  model : String
  id : String
  messages : List CursorMessage
  trigger : String
deriving DecidableEq, Repr

/-- `(*MessageConverter).BuildCursorRequest` (src/utils/converter.go):
the request id is the conversation id when non-empty, else
`"chatcmpl-" ++ millis`; the id is passed down so message ids share it. -/
def BuildCursorRequest (systemPrompt : String) (messages : List ChatMessage)
    (model : String) (conversationID : String) (nowMillis : Nat) : CursorRequest :=
  let requestID := if conversationID = "" then "chatcmpl-" ++ toString nowMillis
                   else conversationID
  { context := [⟨"file", "", "/learn/context"⟩]
    model := model
    id := requestID
    messages := OpenAIToCursorMessages systemPrompt messages requestID nowMillis
    trigger := "submit-message" }

/-- The `input` field of an upstream SSE event (`types.SSEEventData`,
`interface{}` in Go).  After `json.Unmarshal` it is either a JSON string
(used verbatim by the gateway) or some other JSON value, which the gateway
only ever passes through `json.Marshal`; such a value is therefore modelled
by its serialized form. -/
inductive JsonInput where
  | str (s : String)
  | other (marshaled : String)
deriving DecidableEq, Repr

/-- `types.SSEEventData` (src/unnamed/part_000): the discriminator, the
text-delta payload and the tool-call fields.  `input = none` models a JSON
`null` or an absent `input` key (Go `nil` interface).  The `messageMetadata`
field is never inspected by the embedded routing code and is omitted. -/
structure SSEEventData where
  type : String
  id : String
  delta : String
  toolCallId : String
  toolName : String
  input : Option JsonInput
deriving DecidableEq, Repr

/-- Character-level matcher behind `stripHead`: the remainder of the second
list after the first, or `none` when the first is not a prefix. -/
def stripHeadChars : List Char → List Char → Option (List Char)
  | [], s => some s
  | _ :: _, [] => none
  | p :: ps, c :: cs => if p = c then stripHeadChars ps cs else none

/-- `strings.CutPrefix` (Go standard library): the remainder of `s` after
`pre`, or `none` when `pre` is not a prefix of `s`.  Byte- and
character-level prefix matching agree on valid UTF-8 strings. -/
def stripHead (pre s : String) : Option String :=
  (stripHeadChars pre.data s.data).map String.mk

/-- The white-space class of Go's `unicode.IsSpace`, which underlies
`strings.TrimSpace`: ASCII spacing characters plus NEL, NBSP and the Unicode
`Zs` space separators. -/
def goIsSpace (c : Char) : Bool :=
  c ∈ [' ', '\t', '\n', Char.ofNat 0x0B, Char.ofNat 0x0C, '\r',
       Char.ofNat 0x85, Char.ofNat 0xA0, Char.ofNat 0x1680,
       Char.ofNat 0x2000, Char.ofNat 0x2001, Char.ofNat 0x2002,
       Char.ofNat 0x2003, Char.ofNat 0x2004, Char.ofNat 0x2005,
       Char.ofNat 0x2006, Char.ofNat 0x2007, Char.ofNat 0x2008,
       Char.ofNat 0x2009, Char.ofNat 0x200A, Char.ofNat 0x2028,
       Char.ofNat 0x2029, Char.ofNat 0x202F, Char.ofNat 0x205F,
       Char.ofNat 0x3000]

/-- Go's `strings.TrimSpace(line) == ""`: every character is white space. -/
def blankAfterTrim (line : String) : Bool :=
  line.data.all goIsSpace

/-- The line-decoding loop shared by `Chat` and `StreamChat`
(src/service/cursor.go lines 93-112 and 253-272), as the sequence of parsed
events it hands to the routing code: whitespace-only lines and lines without
the `data: ` header are skipped, the `[DONE]` sentinel ends the stream, and
a payload `json.Unmarshal` rejects (`parse` returns `none`) is logged and
skipped.  `parse` abstracts `json.Unmarshal` into `types.SSEEventData`. -/
def decodeSSELines (parse : String → Option SSEEventData) :
    List String → List SSEEventData
  | [] => []
  | line :: rest =>
    if blankAfterTrim line then
      decodeSSELines parse rest
    else
      match stripHead "data: " line with
      | none => decodeSSELines parse rest
      | some data =>
        if data = "[DONE]" then []
        else
          match parse data with
          | none => decodeSSELines parse rest
          | some e => e :: decodeSSELines parse rest

/-- Classification of one SSE line following the spec's wording (§4.3): a
non-blank line carrying the `data: ` header is a frame, and its payload is
the text after the header. -/
def frameData (line : String) : Option String :=
  if blankAfterTrim line then none else stripHead "data: " line

/-- A line whose frame payload is the `[DONE]` sentinel. -/
def isDoneFrame (line : String) : Bool :=
  frameData line == some "[DONE]"

/-- The event of a valid frame, following the spec's wording: a frame that is
not the sentinel and whose payload parses. -/
def validFrameEvent (parse : String → Option SSEEventData) (line : String) :
    Option SSEEventData :=
  match frameData line with
  | none => none
  | some data => if data = "[DONE]" then none else parse data

/-- `inputToJSON` models lines 281-302 of src/service/cursor.go (identical in
`Chat`): a `nil` input is replaced by the literal string `"{}"`, a string
input is used verbatim, any other value is serialized with `json.Marshal`. -/
def inputToJSON : Option JsonInput → String
  | none => "\x7b\x7d"
  | some (.str s) => s
  | some (.other m) => m

/-- `types.CursorToolCall` (src/unnamed/part_000). -/
structure CursorToolCall where
  toolID : String
  toolName : String
  toolInput : String
deriving DecidableEq, Repr

/-- The tool-call value built from a `tool-input-error` event
(src/service/cursor.go lines 281-319): arguments string from `inputToJSON`,
name resolved by fuzzy match against the declared tools. -/
def mkToolCall (tools : List Tool) (e : SSEEventData) : CursorToolCall :=
  { toolID := e.toolCallId
    toolName := resolveToolName tools e.toolName
    toolInput := inputToJSON e.input }

/-- One value sent on the `dataChan` of `StreamChat`
(src/service/cursor.go): either a text delta (a Go `string`) or a
`CursorToolCall`. -/
inductive StreamItem where
  | delta (s : String)
  | toolCall (tc : CursorToolCall)
deriving DecidableEq, Repr

/-- The event-routing loop of `StreamChat` (src/service/cursor.go lines
274-347) over the decoded events: a `tool-input-error` event with at least
one declared tool is terminal — the tool call is sent and the goroutine
returns without draining the rest of the stream; a non-empty `text-delta`
is forwarded; everything else is dropped. -/
def routeEvents (tools : List Tool) : List SSEEventData → List StreamItem
  | [] => []
  | e :: rest =>
    if e.type = "tool-input-error" ∧ tools ≠ [] then
      [.toolCall (mkToolCall tools e)]
    else if e.type = "text-delta" ∧ e.delta ≠ "" then
      .delta e.delta :: routeEvents tools rest
    else
      routeEvents tools rest

/-- The overall result of the non-streaming `Chat`
(src/service/cursor.go): the aggregated text, or the tool call. -/
inductive ChatOutcome where
  | text (content : String)
  | toolCall (tc : CursorToolCall)
deriving DecidableEq, Repr

/-- The event loop of the non-streaming `Chat` (src/service/cursor.go lines
93-180) over the decoded events: `acc` is the `fullContent` string builder;
a `tool-input-error` event with tools declared returns the tool call
immediately (the aggregated text is discarded), non-empty text deltas are
appended, everything else is skipped. -/
def chatProcess (tools : List Tool) : List SSEEventData → String → ChatOutcome
  | [], acc => .text acc
  | e :: rest, acc =>
    if e.type = "tool-input-error" ∧ tools ≠ [] then
      .toolCall (mkToolCall tools e)
    else if e.type = "text-delta" ∧ e.delta ≠ "" then
      chatProcess tools rest (acc ++ e.delta)
    else
      chatProcess tools rest acc

/-- One OpenAI-shaped output of the streaming handler
(src/handler/chat_stream.go), abstracted to the fields the claims are about:
a text chunk (whose delta carries `role: "assistant"` exactly when it is the
first one), a tool-call chunk (delta carrying index, id, resolved name and
arguments string), a chunk with empty delta and a `finish_reason`, and the
literal `data: [DONE]` line. -/
inductive OutChunk where
  | text (withRole : Bool) (content : String)
  | toolCallChunk (index : Nat) (id : String) (name : String) (args : String)
  | finish (reason : String)
  | doneMark
deriving DecidableEq, Repr

/-- The consumer loop of `handleStreamingResponse`
(src/handler/chat_stream.go lines 37-204) over the items produced by
`StreamChat`: when the channel closes, a `finish_reason "stop"` chunk and
`[DONE]` are written; a tool call with an empty arguments string is dropped
(`continue`); a tool call otherwise yields the tool-call chunk, the
`finish_reason "tool_calls"` chunk and `[DONE]`, and the handler returns; a
text item yields a text chunk, with `role` set only on the first one. -/
def shapeStream : Bool → Nat → List StreamItem → List OutChunk
  | _, _, [] => [.finish "stop", .doneMark]
  | isFirst, tIdx, .toolCall tc :: rest =>
    if tc.toolInput = "" then
      shapeStream isFirst tIdx rest
    else
      [.toolCallChunk tIdx tc.toolID tc.toolName tc.toolInput,
       .finish "tool_calls", .doneMark]
  | isFirst, tIdx, .delta s :: rest =>
    .text isFirst s :: shapeStream false tIdx rest

/-- The full streaming pipeline from decoded upstream events to written
OpenAI chunks: `StreamChat` routing followed by the streaming handler. -/
def streamPipeline (tools : List Tool) (events : List SSEEventData) :
    List OutChunk :=
  shapeStream true 0 (routeEvents tools events)

/-- The text fragments the routing loops extract from a list of events. -/
def textsOf (es : List SSEEventData) : List String :=
  es.filterMap fun e =>
    if e.type = "text-delta" ∧ e.delta ≠ "" then some e.delta else none

/-- The text chunks the streaming handler writes for a run of text deltas,
threading the first-chunk flag. -/
def textChunksFrom : Bool → List String → List OutChunk
  | _, [] => []
  | isFirst, s :: rest => .text isFirst s :: textChunksFrom false rest

/-- Recognizer for tool-call chunks. -/
def isToolCallChunk : OutChunk → Bool
  | .toolCallChunk _ _ _ _ => true
  | _ => false

/-- Outcome of one fallible refresh step (`downloadJS` or the processor call
`getXIsHuman` in src/models/manager_refresh.go): the produced string, or the
error text. -/
inductive StepResult where
  | ok (val : String)
  | err (msg : String)
deriving DecidableEq, Repr

/-- Outcomes of the two HTTP steps of the refresh procedure, per 1-based
attempt number: first component is the `downloadJS` outcome, second the
processor (`getXIsHuman`) outcome on that attempt. -/
def RefreshEnv : Type := Nat → StepResult × StepResult

/-- `models.AntiBotManager` (src/models/manager.go), sequentialized: the
cached token and timestamps guarded by the lock, the refresher-active flag,
the single-slot wake channel (`wakePending`), the atomic counters and the
last refresh error.  Times are second-granularity `Nat` values. -/
structure ManagerState where
  currentXIsHuman : String
  jsCode : String
  lastUpdateTime : Nat
  lastAccessTime : Nat
  refreshActive : Bool
  wakePending : Bool
  totalRequests : Nat
  successRequests : Nat
  failedRequests : Nat
  cacheHits : Nat
  lastError : Option String
deriving DecidableEq, Repr

/-- The failure exit of the refresh retry loop
(src/models/manager_refresh.go lines 111-112): bump the failure counter and
return the wrapped last error. -/
def refreshFailExit (maxRetries : Nat) (s : ManagerState) (lastErr : String) :
    ManagerState × Option String × List Nat :=
  ({ s with failedRequests := s.failedRequests + 1 },
   some ("重试 " ++ toString maxRetries ++ " 次后仍然失败: " ++ lastErr), [])

/-- The retry loop of `refreshParametersUnsafe`
(src/models/manager_refresh.go lines 75-113).  `remaining` is the fuel
(`maxRetries - attempt + 1` loop iterations left), `attempt` the 1-based
attempt counter of the Go `for` loop.  On a step failure the loop sleeps
`attempt` seconds and retries while `attempt < maxRetries`, else breaks to
the failure exit; on success it installs the new script, token and refresh
timestamp.  The third component collects the `time.Sleep` durations in
seconds, recording the linear back-off. -/
def refreshLoopGo (env : RefreshEnv) (maxRetries now : Nat) :
    Nat → Nat → ManagerState → String → ManagerState × Option String × List Nat
  | 0, _, s, lastErr => refreshFailExit maxRetries s lastErr
  | remaining + 1, attempt, s, _lastErr =>
    match (env attempt).1 with
    | .err e =>
      let le := "下载JS失败: " ++ e
      if attempt < maxRetries then
        let r := refreshLoopGo env maxRetries now remaining (attempt + 1) s le
        (r.1, r.2.1, attempt :: r.2.2)
      else refreshFailExit maxRetries s le
    | .ok js =>
      match (env attempt).2 with
      | .err e =>
        let le := "获取参数失败: " ++ e
        if attempt < maxRetries then
          let r := refreshLoopGo env maxRetries now remaining (attempt + 1) s le
          (r.1, r.2.1, attempt :: r.2.2)
        else refreshFailExit maxRetries s le
      | .ok x =>
        ({ s with jsCode := js, currentXIsHuman := x, lastUpdateTime := now },
         none, [])

/-- `refreshParametersUnsafe` (src/models/manager_refresh.go): the retry
loop entered at attempt 1 with `maxRetries` iterations of fuel; `lastErr`
starts out empty (`nil` in Go).  Returns the updated state, the error
(`none` on success) and the back-off sleeps performed. -/
def refreshParametersNoLock (env : RefreshEnv) (maxRetries now : Nat)
    (s : ManagerState) : ManagerState × Option String × List Nat :=
  refreshLoopGo env maxRetries now maxRetries 1 s ""

/-- Result of `GetXIsHuman`: the token, or the error text. -/
inductive TokenResult where
  | ok (token : String)
  | error (msg : String)
deriving DecidableEq, Repr

/-- The tail of `GetXIsHuman` (docs/tool_calling/IMPLEMENTATION_PLAN.md lines
693-705): a still-empty token yields the not-initialized error and bumps the
failure counter; otherwise the cached token is served and the success and
cache-hit counters are bumped. -/
def finishGet (s : ManagerState) : ManagerState × TokenResult :=
  if s.currentXIsHuman = "" then
    ({ s with failedRequests := s.failedRequests + 1 }, .error "参数未初始化")
  else
    ({ s with successRequests := s.successRequests + 1,
              cacheHits := s.cacheHits + 1 },
     .ok s.currentXIsHuman)

/-- `(*AntiBotManager).GetXIsHuman` (src/docs/tool_calling/
IMPLEMENTATION_PLAN.md lines 651-705; the accessor's Go file itself is not
under src/), sequentialized with `now` the frozen time of the call in
seconds and the manager's `maxRetries = 3` (NewAntiBotManager): bump total
requests and update the access time; if the refresher is suspended, post a
non-blocking wake on the capacity-1 channel; if the cached token is older
than the 28-second hard expiry, run an in-line forced refresh under the
write lock (the double-checked expiry test re-evaluates to the same value in
the sequential model), surfacing its failure after bumping the failure
counter and recording the error; finally serve or fail via `finishGet`.
`getAfterExpiry` is the write-locked forced-refresh block of `GetXIsHuman`
(IMPLEMENTATION_PLAN.md lines 677-689): a failed forced refresh bumps the
failure counter, records the error and surfaces `ExpiredRefreshError`;
a successful one proceeds to serve. -/
def getAfterExpiry (env : RefreshEnv) (now : Nat) (s2 : ManagerState) :
    ManagerState × TokenResult :=
  match refreshParametersNoLock env 3 now s2 with
  | (s3, some e, _) =>
    ({ s3 with failedRequests := s3.failedRequests + 1, lastError := some e },
     .error ("强制刷新参数失败: " ++ e))
  | (s3, none, _) => finishGet s3

/-- The body of `GetXIsHuman`, entered with the frozen call time `now`:
counter and access-time updates, the wake signal, then the hard-expiry
branch. -/
def GetXIsHuman (env : RefreshEnv) (now : Nat) (s0 : ManagerState) :
    ManagerState × TokenResult :=
  let s1 := { s0 with totalRequests := s0.totalRequests + 1,
                      lastAccessTime := now }
  let s2 := if s1.refreshActive then s1 else { s1 with wakePending := true }
  if 28 < now - s2.lastUpdateTime then getAfterExpiry env now s2
  else finishGet s2

/-- Result of one `Read` call: byte count and optional error, as in Go's
`io.Reader` contract. -/
structure ReadResult where
  n : Nat
  err : Option String
deriving DecidableEq, Repr

/-- `(*contextReader).Read` (src/service/cursor.go lines 376-387): the
underlying reader is an abstract deterministic byte source with state `σ`;
`ctxDone` is whether the context's done channel is closed at the start of
the call and `ctxErr` the context's error text.  When cancelled, the call
returns `(0, ctxErr)` without touching the source; otherwise it delegates. -/
def contextReaderRead {σ : Type} (ctxDone : Bool) (ctxErr : String)
    (underlyingRead : σ → ReadResult × σ) (st : σ) : ReadResult × σ :=
  if ctxDone then (⟨0, some ctxErr⟩, st) else underlyingRead st

/-- Running total of the `EstimateMessagesTokens` loop, related to the sum of
per-message estimates. -/
theorem estimate_foldl_eq_sum (messages : List ChatMessage) (a : Nat) :
    messages.foldl (fun total msg => total + EstimateTokens msg.content) a
      = a + (messages.map fun m => EstimateTokens m.content).sum := by
  induction messages generalizing a with
  | nil => simp
  | cons m rest ih => simp [List.foldl_cons, ih, Nat.add_assoc]

/-- C5: `EstimateTokens text` is `(len(text)+3)/4` in integer arithmetic with
`len` the UTF-8 byte count, and `EstimateMessagesTokens` is the sum of the
per-message estimates of the contents. -/
theorem c5_token_estimation :
    (∀ text : String, EstimateTokens text = (text.utf8ByteSize + 3) / 4)
    ∧ (∀ messages : List ChatMessage,
        EstimateMessagesTokens messages
          = (messages.map fun m => EstimateTokens m.content).sum) := by
  refine ⟨fun _ => rfl, fun messages => ?_⟩
  show messages.foldl _ 0 = _
  rw [estimate_foldl_eq_sum]
  simp

/-- C9: every `contextReader.Read` call first checks the cancellation signal;
when set it returns `(0, ctxErr)` with the underlying source untouched, and
when clear it returns exactly the underlying source's result. -/
theorem c9_cancellable_reader (σ : Type) (ctxDone : Bool) (ctxErr : String)
    (underlyingRead : σ → ReadResult × σ) (st : σ) :
    (ctxDone = true →
      contextReaderRead ctxDone ctxErr underlyingRead st = (⟨0, some ctxErr⟩, st))
    ∧ (ctxDone = false →
      contextReaderRead ctxDone ctxErr underlyingRead st = underlyingRead st) := by
  constructor <;> intro h <;> simp [contextReaderRead, h]

/-- Witness for C9 at a concrete source: a cancelled read leaves the counter
state 0 untouched and reports the context error; an uncancelled read
delegates. -/
theorem c9_cancellable_reader_witness :
    (true = true ∧
      contextReaderRead true "context canceled"
        (fun k : Nat => (⟨3, none⟩, k + 1)) 0 = (⟨0, some "context canceled"⟩, 0))
    ∧ (false = false ∧
      contextReaderRead false "context canceled"
        (fun k : Nat => (⟨3, none⟩, k + 1)) 0 = (⟨3, none⟩, 1)) :=
  ⟨⟨rfl, (c9_cancellable_reader Nat true "context canceled"
      (fun k => (⟨3, none⟩, k + 1)) 0).1 rfl⟩,
   ⟨rfl, (c9_cancellable_reader Nat false "context canceled"
      (fun k => (⟨3, none⟩, k + 1)) 0).2 rfl⟩⟩

/-- C7: resolution trichotomy for upstream tool names — an exact declared
name wins and resolves to itself; otherwise an underscore/hyphen-normalized
match resolves to the matching declared tool's name; otherwise the upstream
name is kept verbatim — together with the two literal examples. -/
theorem c7_fuzzy_match (n : String) (tools : List Tool) :
    ((∃ t ∈ tools, t.function.name = n) → resolveToolName tools n = n)
    ∧ ((¬ ∃ t ∈ tools, t.function.name = n) →
        (∃ t ∈ tools, NormalizeToolName t.function.name = NormalizeToolName n) →
        ∃ t ∈ tools, NormalizeToolName t.function.name = NormalizeToolName n
          ∧ resolveToolName tools n = t.function.name)
    ∧ ((¬ ∃ t ∈ tools, NormalizeToolName t.function.name = NormalizeToolName n) →
        resolveToolName tools n = n)
    ∧ resolveToolName [⟨"function", ⟨"list-files"⟩⟩] "list_files" = "list-files"
    ∧ resolveToolName [⟨"function", ⟨"list-files"⟩⟩] "unknown" = "unknown" := by
  refine ⟨?_, ?_, ?_, by decide, by decide⟩
  · rintro ⟨t, ht, hname⟩
    have hsome : (tools.find? (fun t => t.function.name == n)).isSome := by
      rw [List.find?_isSome]
      exact ⟨t, ht, by simp [hname]⟩
    obtain ⟨t₀, h₀⟩ := Option.isSome_iff_exists.mp hsome
    have hp := List.find?_some h₀
    simp only [beq_iff_eq] at hp
    simp [resolveToolName, FindToolByName, h₀, hp]
  · intro hex hnorm
    have hnone : tools.find? (fun t => t.function.name == n) = none := by
      rw [List.find?_eq_none]
      intro t ht
      simp only [beq_iff_eq]
      exact fun hname => hex ⟨t, ht, hname⟩
    obtain ⟨t, ht, heq⟩ := hnorm
    have hsome : (tools.find?
        (fun t => NormalizeToolName t.function.name == NormalizeToolName n)).isSome := by
      rw [List.find?_isSome]
      exact ⟨t, ht, by simp [heq]⟩
    obtain ⟨t₀, h₀⟩ := Option.isSome_iff_exists.mp hsome
    have hp := List.find?_some h₀
    have hmem := List.mem_of_find?_eq_some h₀
    simp only [beq_iff_eq] at hp
    exact ⟨t₀, hmem, hp, by simp [resolveToolName, FindToolByName, hnone, h₀]⟩
  · intro hnone
    have h₂ : tools.find?
        (fun t => NormalizeToolName t.function.name == NormalizeToolName n) = none := by
      rw [List.find?_eq_none]
      intro t ht
      simp only [beq_iff_eq]
      exact fun heq => hnone ⟨t, ht, heq⟩
    have h₁ : tools.find? (fun t => t.function.name == n) = none := by
      rw [List.find?_eq_none]
      intro t ht
      simp only [beq_iff_eq]
      intro hname
      exact hnone ⟨t, ht, by rw [hname]⟩
    simp [resolveToolName, FindToolByName, h₁, h₂]

/-- Witness for C7: both fuzzy-match examples, derived by applying the
trichotomy at the concrete inputs. -/
theorem c7_fuzzy_match_witness :
    resolveToolName [⟨"function", ⟨"list-files"⟩⟩] "list_files" = "list-files"
    ∧ resolveToolName [⟨"function", ⟨"list-files"⟩⟩] "unknown" = "unknown" := by
  refine ⟨?_, ?_⟩
  · obtain ⟨t, ht, hn, hr⟩ :=
      (c7_fuzzy_match "list_files" [⟨"function", ⟨"list-files"⟩⟩]).2.1
        (by decide) (by decide)
    have : t = ⟨"function", ⟨"list-files"⟩⟩ := by
      simpa using ht
    rw [hr, this]
  · exact (c7_fuzzy_match "unknown" [⟨"function", ⟨"list-files"⟩⟩]).2.2.1 (by decide)

/-- C6: the SSE line decoder yields exactly the parsed events of the valid
frames before the `[DONE]` sentinel, in order — blank lines, non-`data:`
lines and frames whose payload fails to parse are skipped without aborting
the stream or suppressing later valid frames. -/
theorem c6_decoder_robustness (parse : String → Option SSEEventData)
    (lines : List String) :
    decodeSSELines parse lines
      = (lines.takeWhile fun l => !isDoneFrame l).filterMap (validFrameEvent parse) := by
  induction lines with
  | nil => rfl
  | cons line rest ih =>
    by_cases hb : blankAfterTrim line
    · have hf : frameData line = none := by simp [frameData, hb]
      simp [decodeSSELines, hb, List.takeWhile_cons, isDoneFrame, hf,
            List.filterMap_cons, validFrameEvent, ih]
    · cases hs : stripHead "data: " line with
      | none =>
        have hf : frameData line = none := by simp [frameData, hb, hs]
        simp [decodeSSELines, hb, hs, List.takeWhile_cons, isDoneFrame, hf,
              List.filterMap_cons, validFrameEvent, ih]
      | some data =>
        have hf : frameData line = some data := by simp [frameData, hb, hs]
        by_cases hdone : data = "[DONE]"
        · simp [decodeSSELines, hb, hs, hdone, List.takeWhile_cons, isDoneFrame, hf]
        · cases hp : parse data with
          | none =>
            simp [decodeSSELines, hb, hs, hdone, hp, List.takeWhile_cons, isDoneFrame,
                  hf, List.filterMap_cons, validFrameEvent, ih]
          | some e =>
            simp [decodeSSELines, hb, hs, hdone, hp, List.takeWhile_cons, isDoneFrame,
                  hf, List.filterMap_cons, validFrameEvent, ih]

/-- C3 (code evaluation at the failing input): for input
`[{system,"S"},{user,"U"}]` the first message of the built upstream body is a
user message whose text is `"U"` — the system content is dropped, not folded —
both with a non-empty configured prompt `"P"` (the claim expects
`"S\n\nP\n\nU"`) and with an empty prompt (the claim expects `"S\n\nU"`);
the fold in `OpenAIToCursorMessages` fires only when the user message sits at
input index 0 and the prompt is non-empty. -/
theorem c3_system_fold_dropped :
    (BuildCursorRequest "P" [⟨"system", "S"⟩, ⟨"user", "U"⟩] "m" "conv1" 0).messages
      = [{ parts := [⟨"text", "U"⟩], id := "msg-conv1-1", role := "user",
           metadata := none }]
    ∧ (BuildCursorRequest "" [⟨"system", "S"⟩, ⟨"user", "U"⟩] "m" "conv1" 0).messages
      = [{ parts := [⟨"text", "U"⟩], id := "msg-conv1-1", role := "user",
           metadata := none }]
    ∧ "U" ≠ "S\n\nP\n\nU" ∧ "U" ≠ "S\n\nU" := by
  refine ⟨by decide, by decide, by decide, by decide⟩

/-- Message ids produced by the converter loop: the id of each emitted
message records the input index of its originating message, with system
messages skipped but still consuming their index. -/
theorem convertLoop_ids (systemPrompt : String) (all : List ChatMessage)
    (baseID : String) (l : List ChatMessage) (i : Nat) :
    (convertLoop systemPrompt all baseID i l).map (fun m => m.id)
      = (l.enumFrom i).filterMap fun p =>
          if p.2.role = "system" then none
          else some ("msg-" ++ baseID ++ "-" ++ toString p.1) := by
  induction l generalizing i with
  | nil => rfl
  | cons msg rest ih =>
    by_cases hr : msg.role = "system"
    · simp [convertLoop, hr, List.enumFrom, List.filterMap_cons, ih]
    · simp [convertLoop, hr, List.enumFrom, List.filterMap_cons, ih]

/-- C4 counterexample: with conversation id `"c"` and input
`[{system,"S"},{user,"U"}]`, the message at body position 0 carries id
`"msg-c-1"`, not the `"msg-c-0"` the per-position formula of the claim
demands. -/
theorem c4_position_id_counterexample :
    ((BuildCursorRequest "" [⟨"system", "S"⟩, ⟨"user", "U"⟩] "m" "c" 0).messages.map
        (fun m => m.id)) = ["msg-c-1"]
    ∧ ("msg-c-1" : String) ≠ "msg-c-0" := by
  refine ⟨by decide, by decide⟩

/-- C4 (amended): with a non-empty conversation id the built upstream body is
a deterministic function of the inputs — the clock parameter is unused — the
request id is the conversation id, and every emitted message carries the id
`"msg-" ++ cid ++ "-" ++ i` where `i` is the input index of its originating
message (system messages are skipped but still consume their index). -/
theorem c4_conversation_id_stability (systemPrompt : String)
    (messages : List ChatMessage) (model cid : String) (now₁ now₂ : Nat)
    (h : cid ≠ "") :
    BuildCursorRequest systemPrompt messages model cid now₁
      = BuildCursorRequest systemPrompt messages model cid now₂
    ∧ (BuildCursorRequest systemPrompt messages model cid now₁).id = cid
    ∧ (BuildCursorRequest systemPrompt messages model cid now₁).messages.map
        (fun m => m.id)
      = (messages.enum).filterMap fun p =>
          if p.2.role = "system" then none
          else some ("msg-" ++ cid ++ "-" ++ toString p.1) := by
  refine ⟨?_, ?_, ?_⟩
  · simp [BuildCursorRequest, OpenAIToCursorMessages, h]
  · simp [BuildCursorRequest, h]
  · have hid := convertLoop_ids systemPrompt messages cid messages 0
    simpa [BuildCursorRequest, OpenAIToCursorMessages, h, List.enum] using hid

/-- Witness for C4: two builds of the same two-message conversation `"c"` at
different clock values agree, the request id is `"c"`, and the ids are
`msg-c-0`, `msg-c-1`. -/
theorem c4_conversation_id_stability_witness :
    ("c" : String) ≠ ""
    ∧ BuildCursorRequest "" [⟨"user", "hi"⟩, ⟨"assistant", "yo"⟩] "m" "c" 0
        = BuildCursorRequest "" [⟨"user", "hi"⟩, ⟨"assistant", "yo"⟩] "m" "c" 99
    ∧ (BuildCursorRequest "" [⟨"user", "hi"⟩, ⟨"assistant", "yo"⟩] "m" "c" 0).id = "c"
    ∧ (BuildCursorRequest "" [⟨"user", "hi"⟩, ⟨"assistant", "yo"⟩] "m" "c" 0).messages.map
        (fun m => m.id)
      = ([⟨"user", "hi"⟩, ⟨"assistant", "yo"⟩] : List ChatMessage).enum.filterMap
          fun p => if p.2.role = "system" then none
                   else some ("msg-" ++ "c" ++ "-" ++ toString p.1) := by
  have h := c4_conversation_id_stability "" [⟨"user", "hi"⟩, ⟨"assistant", "yo"⟩]
    "m" "c" 0 99 (by decide)
  exact ⟨by decide, h.1, h.2.1, h.2.2⟩

/-- Routing skips over a run of events containing no terminal tool-call
event, forwarding exactly its non-empty text deltas. -/
theorem routeEvents_append (tools : List Tool) (es₁ rest : List SSEEventData)
    (h : ∀ x ∈ es₁, ¬(x.type = "tool-input-error" ∧ tools ≠ [])) :
    routeEvents tools (es₁ ++ rest)
      = (textsOf es₁).map StreamItem.delta ++ routeEvents tools rest := by
  induction es₁ with
  | nil => simp [textsOf]
  | cons e es ih =>
    have he := h e (List.mem_cons_self e es)
    have hrest : ∀ x ∈ es, ¬(x.type = "tool-input-error" ∧ tools ≠ []) :=
      fun x hx => h x (List.mem_cons_of_mem e hx)
    by_cases hd : e.type = "text-delta" ∧ e.delta ≠ ""
    · simp [routeEvents, he, hd, textsOf, List.filterMap_cons, ih hrest]
    · simp [routeEvents, he, hd, textsOf, List.filterMap_cons, ih hrest]

/-- Concatenation of a list of text fragments, as the `strings.Builder`
accumulation produces it. -/
def concatTexts : List String → String
  | [] => ""
  | s :: ss => s ++ concatTexts ss

/-- The non-streaming loop skips over a run of events containing no terminal
tool-call event (accumulating its text) and then continues. -/
theorem chatProcess_append (tools : List Tool) (es₁ rest : List SSEEventData)
    (h : ∀ x ∈ es₁, ¬(x.type = "tool-input-error" ∧ tools ≠ [])) (acc : String) :
    chatProcess tools (es₁ ++ rest) acc
      = chatProcess tools rest (acc ++ concatTexts (textsOf es₁)) := by
  induction es₁ generalizing acc with
  | nil => simp [textsOf, concatTexts]
  | cons e es ih =>
    have he := h e (List.mem_cons_self e es)
    have hrest : ∀ x ∈ es, ¬(x.type = "tool-input-error" ∧ tools ≠ []) :=
      fun x hx => h x (List.mem_cons_of_mem e hx)
    by_cases hd : e.type = "text-delta" ∧ e.delta ≠ ""
    · simp [chatProcess, he, hd, textsOf, List.filterMap_cons, ih hrest,
            concatTexts, String.append_assoc]
    · simp [chatProcess, he, hd, textsOf, List.filterMap_cons, ih hrest]

/-- The streaming shaper turns a run of text deltas into text chunks,
clearing the first-chunk flag, and continues on the remaining items. -/
theorem shapeStream_deltas (xs : List String) (isFirst : Bool) (tIdx : Nat)
    (rest : List StreamItem) :
    shapeStream isFirst tIdx (xs.map StreamItem.delta ++ rest)
      = textChunksFrom isFirst xs ++ shapeStream (isFirst && xs.isEmpty) tIdx rest := by
  induction xs generalizing isFirst with
  | nil => simp [textChunksFrom]
  | cons s ss ih =>
    simp [shapeStream, textChunksFrom, ih, List.isEmpty_cons]

/-- Text chunks are not tool-call chunks. -/
theorem textChunksFrom_no_toolCall (isFirst : Bool) (xs : List String) :
    (textChunksFrom isFirst xs).filter isToolCallChunk = [] := by
  induction xs generalizing isFirst with
  | nil => rfl
  | cons s ss ih => simp [textChunksFrom, List.filter_cons, isToolCallChunk, ih]

/-- C2 (amended): in streaming mode with tools declared, when the first
`tool-input-error` event arrives and its resolved arguments string is
non-empty (always the case except for an upstream input that is the explicit
empty JSON string, since a missing or null input becomes `"{}"`), the chunk
sequence is exactly the text chunks of the preceding deltas, then one
tool-call chunk, then one `finish_reason "tool_calls"` chunk with empty
delta, then `data: [DONE]` — in particular exactly one tool-call chunk and
no text chunk derived from events after the `tool-input-error`. -/
theorem c2_tool_call_terminal (tools : List Tool) (es₁ es₂ : List SSEEventData)
    (e : SSEEventData) (htools : tools ≠ [])
    (hpre : ∀ x ∈ es₁, x.type ≠ "tool-input-error")
    (he : e.type = "tool-input-error")
    (hin : inputToJSON e.input ≠ "") :
    streamPipeline tools (es₁ ++ e :: es₂)
      = textChunksFrom true (textsOf es₁)
        ++ [.toolCallChunk 0 e.toolCallId (resolveToolName tools e.toolName)
              (inputToJSON e.input),
            .finish "tool_calls", .doneMark]
    ∧ ((streamPipeline tools (es₁ ++ e :: es₂)).filter isToolCallChunk).length = 1 := by
  have hpre' : ∀ x ∈ es₁, ¬(x.type = "tool-input-error" ∧ tools ≠ []) :=
    fun x hx hc => hpre x hx hc.1
  have hroute : routeEvents tools (es₁ ++ e :: es₂)
      = (textsOf es₁).map StreamItem.delta ++ [.toolCall (mkToolCall tools e)] := by
    rw [routeEvents_append tools es₁ (e :: es₂) hpre']
    simp [routeEvents, he, htools]
  have hmain : streamPipeline tools (es₁ ++ e :: es₂)
      = textChunksFrom true (textsOf es₁)
        ++ [.toolCallChunk 0 e.toolCallId (resolveToolName tools e.toolName)
              (inputToJSON e.input),
            .finish "tool_calls", .doneMark] := by
    rw [streamPipeline, hroute, shapeStream_deltas]
    simp [shapeStream, mkToolCall, hin]
  refine ⟨hmain, ?_⟩
  rw [hmain]
  simp [List.filter_append, textChunksFrom_no_toolCall, List.filter_cons,
        isToolCallChunk]

/-- C2 counterexample: a `tool-input-error` event whose `input` is the
explicit empty JSON string, with a tool declared, produces no tool-call chunk
at all — the handler drops the empty-argument tool call and the stream ends
with a `finish_reason "stop"` chunk — refuting the claimed sequence of
exactly one tool-call chunk followed by a `tool_calls` finish chunk. -/
theorem c2_tool_call_terminal_counterexample :
    streamPipeline [⟨"function", ⟨"search-web"⟩⟩]
        [⟨"tool-input-error", "", "", "tc1", "search-web", some (.str "")⟩]
      = [.finish "stop", .doneMark]
    ∧ ((streamPipeline [⟨"function", ⟨"search-web"⟩⟩]
        [⟨"tool-input-error", "", "", "tc1", "search-web", some (.str "")⟩]).filter
          isToolCallChunk).length = 0 := by
  refine ⟨by decide, by decide⟩

/-- Witness for C2: one preceding text delta, then a `tool-input-error` with
a JSON-object input; the emitted chunks are the text chunk, the tool-call
chunk, the `tool_calls` finish chunk and `[DONE]`. -/
theorem c2_tool_call_terminal_witness :
    (([⟨"function", ⟨"search-web"⟩⟩] : List Tool) ≠ []
      ∧ (∀ x ∈ ([⟨"text-delta", "", "he", "", "", none⟩] : List SSEEventData),
          x.type ≠ "tool-input-error")
      ∧ (⟨"tool-input-error", "", "", "tc1", "search-web",
            some (.other "\x7b\"q\":\"x\"\x7d")⟩ : SSEEventData).type
          = "tool-input-error"
      ∧ inputToJSON (some (.other "\x7b\"q\":\"x\"\x7d")) ≠ "")
    ∧ (streamPipeline [⟨"function", ⟨"search-web"⟩⟩]
          ([⟨"text-delta", "", "he", "", "", none⟩]
            ++ ⟨"tool-input-error", "", "", "tc1", "search-web",
                  some (.other "\x7b\"q\":\"x\"\x7d")⟩ :: [])
        = textChunksFrom true
            (textsOf [⟨"text-delta", "", "he", "", "", none⟩])
          ++ [.toolCallChunk 0 "tc1"
                (resolveToolName [⟨"function", ⟨"search-web"⟩⟩] "search-web")
                (inputToJSON (some (.other "\x7b\"q\":\"x\"\x7d"))),
              .finish "tool_calls", .doneMark]
      ∧ ((streamPipeline [⟨"function", ⟨"search-web"⟩⟩]
            ([⟨"text-delta", "", "he", "", "", none⟩]
              ++ ⟨"tool-input-error", "", "", "tc1", "search-web",
                    some (.other "\x7b\"q\":\"x\"\x7d")⟩ :: [])).filter
            isToolCallChunk).length = 1) :=
  ⟨⟨by decide, by decide, rfl, by decide⟩,
    c2_tool_call_terminal [⟨"function", ⟨"search-web"⟩⟩]
      [⟨"text-delta", "", "he", "", "", none⟩] []
      ⟨"tool-input-error", "", "", "tc1", "search-web",
        some (.other "\x7b\"q\":\"x\"\x7d")⟩
      (by decide) (by decide) rfl (by decide)⟩

/-- C10: when the first `tool-input-error` event carries a missing or null
`input` (Go `nil` interface) and tools are declared, both pipelines still
emit a tool call whose arguments string is exactly `"{}"`: the non-streaming
loop returns that tool call, and the streaming pipeline emits a tool-call
chunk with arguments `"{}"` followed by the `tool_calls` finish chunk and
`[DONE]`. -/
theorem c10_nil_input_empty_object (tools : List Tool)
    (es₁ es₂ : List SSEEventData) (e : SSEEventData) (acc : String)
    (htools : tools ≠ [])
    (hpre : ∀ x ∈ es₁, x.type ≠ "tool-input-error")
    (he : e.type = "tool-input-error")
    (hnil : e.input = none) :
    chatProcess tools (es₁ ++ e :: es₂) acc
      = .toolCall ⟨e.toolCallId, resolveToolName tools e.toolName, "\x7b\x7d"⟩
    ∧ streamPipeline tools (es₁ ++ e :: es₂)
      = textChunksFrom true (textsOf es₁)
        ++ [.toolCallChunk 0 e.toolCallId (resolveToolName tools e.toolName)
              "\x7b\x7d",
            .finish "tool_calls", .doneMark] := by
  have hpre' : ∀ x ∈ es₁, ¬(x.type = "tool-input-error" ∧ tools ≠ []) :=
    fun x hx hc => hpre x hx hc.1
  have hjson : inputToJSON e.input = "\x7b\x7d" := by rw [hnil]; rfl
  constructor
  · rw [chatProcess_append tools es₁ (e :: es₂) hpre']
    simp [chatProcess, he, htools, mkToolCall, hjson]
  · have hroute : routeEvents tools (es₁ ++ e :: es₂)
        = (textsOf es₁).map StreamItem.delta ++ [.toolCall (mkToolCall tools e)] := by
      rw [routeEvents_append tools es₁ (e :: es₂) hpre']
      simp [routeEvents, he, htools]
    rw [streamPipeline, hroute, shapeStream_deltas]
    simp [shapeStream, mkToolCall, hjson]

/-- Witness for C10: a single `tool-input-error` with `input = none`; the
non-streaming call returns the tool call with arguments `"{}"` and the
streaming pipeline emits the tool-call chunk with arguments `"{}"`. -/
theorem c10_nil_input_empty_object_witness :
    (([⟨"function", ⟨"search-web"⟩⟩] : List Tool) ≠ []
      ∧ (∀ x ∈ ([] : List SSEEventData), x.type ≠ "tool-input-error")
      ∧ (⟨"tool-input-error", "", "", "tc9", "search_web", none⟩ : SSEEventData).type
          = "tool-input-error"
      ∧ (⟨"tool-input-error", "", "", "tc9", "search_web", none⟩ : SSEEventData).input
          = none)
    ∧ (chatProcess [⟨"function", ⟨"search-web"⟩⟩]
          ([] ++ ⟨"tool-input-error", "", "", "tc9", "search_web", none⟩ :: []) ""
        = .toolCall ⟨"tc9",
            resolveToolName [⟨"function", ⟨"search-web"⟩⟩] "search_web", "\x7b\x7d"⟩
      ∧ streamPipeline [⟨"function", ⟨"search-web"⟩⟩]
          ([] ++ ⟨"tool-input-error", "", "", "tc9", "search_web", none⟩ :: [])
        = textChunksFrom true (textsOf [])
          ++ [.toolCallChunk 0 "tc9"
                (resolveToolName [⟨"function", ⟨"search-web"⟩⟩] "search_web")
                "\x7b\x7d",
              .finish "tool_calls", .doneMark]) :=
  ⟨⟨by decide, by decide, rfl, rfl⟩,
    c10_nil_input_empty_object [⟨"function", ⟨"search-web"⟩⟩] [] []
      ⟨"tool-input-error", "", "", "tc9", "search_web", none⟩ ""
      (by decide) (by decide) rfl rfl⟩

/-- A successful run of the refresh retry loop stamps the refresh time with
the current clock. -/
theorem refreshLoopGo_success_time (env : RefreshEnv) (maxRetries now : Nat) :
    ∀ (remaining attempt : Nat) (s : ManagerState) (lastErr : String),
    (refreshLoopGo env maxRetries now remaining attempt s lastErr).2.1 = none →
    (refreshLoopGo env maxRetries now remaining attempt s lastErr).1.lastUpdateTime
      = now := by
  intro remaining
  induction remaining with
  | zero => intro attempt s lastErr h; simp [refreshLoopGo, refreshFailExit] at h
  | succ r ih =>
    intro attempt s lastErr h
    rcases hd : (env attempt).1 with val | e
    · rcases hp : (env attempt).2 with x | e
      · simp [refreshLoopGo, hd, hp] at h ⊢
      · by_cases hlt : attempt < maxRetries
        · simp only [refreshLoopGo, hd, hp, if_pos hlt] at h ⊢
          exact ih (attempt + 1) s _ h
        · simp [refreshLoopGo, hd, hp, if_neg hlt, refreshFailExit] at h
    · by_cases hlt : attempt < maxRetries
      · simp only [refreshLoopGo, hd, if_pos hlt] at h ⊢
        exact ih (attempt + 1) s _ h
      · simp [refreshLoopGo, hd, if_neg hlt, refreshFailExit] at h

/-- `refreshParametersNoLock` stamps the refresh time on success. -/
theorem refreshParametersNoLock_success_time (env : RefreshEnv)
    (maxRetries now : Nat) (s : ManagerState) :
    (refreshParametersNoLock env maxRetries now s).2.1 = none →
    (refreshParametersNoLock env maxRetries now s).1.lastUpdateTime = now :=
  refreshLoopGo_success_time env maxRetries now maxRetries 1 s ""

/-- `finishGet` serves or fails without touching the refresh timestamp. -/
theorem finishGet_lastUpdateTime (s : ManagerState) :
    (finishGet s).1.lastUpdateTime = s.lastUpdateTime := by
  by_cases h : s.currentXIsHuman = "" <;> simp [finishGet, h]

/-- The forced-refresh block only serves a token when the in-line refresh
succeeded, and then the refresh timestamp is the current clock. -/
theorem getAfterExpiry_ok_time (env : RefreshEnv) (now : Nat)
    (s2 : ManagerState) (tok : String)
    (h : (getAfterExpiry env now s2).2 = .ok tok) :
    (getAfterExpiry env now s2).1.lastUpdateTime = now := by
  unfold getAfterExpiry at h ⊢
  rcases hr : refreshParametersNoLock env 3 now s2 with ⟨s3, res, sleeps⟩
  rw [hr] at h
  cases res with
  | some e => exact TokenResult.noConfusion h
  | none =>
    have h2 := refreshParametersNoLock_success_time env 3 now s2
    rw [hr] at h2
    simpa [finishGet_lastUpdateTime] using h2 rfl

/-- The hard-expiry branch of `GetXIsHuman`, for an arbitrary post-bookkeeping
state: a served token has age at most 28 seconds at return. -/
theorem getCore_age_bound (env : RefreshEnv) (now : Nat) (s2 : ManagerState)
    (tok : String)
    (h : (if 28 < now - s2.lastUpdateTime then getAfterExpiry env now s2
          else finishGet s2).2 = .ok tok) :
    now - (if 28 < now - s2.lastUpdateTime then getAfterExpiry env now s2
           else finishGet s2).1.lastUpdateTime ≤ 28 := by
  by_cases hexp : 28 < now - s2.lastUpdateTime
  · rw [if_pos hexp] at h ⊢
    rw [getAfterExpiry_ok_time env now s2 tok h]
    simp
  · rw [if_neg hexp] at h ⊢
    rw [finishGet_lastUpdateTime]
    exact Nat.le_of_not_lt hexp

/-- C1: whenever `GetXIsHuman` returns a token, the age of the cached token
at return time is at most the 28-second hard expiry — a cache older than 28
seconds forces an in-line refresh, and if that refresh fails the call
returns an error instead of a token. -/
theorem c1_served_token_age_bound (env : RefreshEnv) (now : Nat)
    (s : ManagerState) (tok : String)
    (h : (GetXIsHuman env now s).2 = .ok tok) :
    now - (GetXIsHuman env now s).1.lastUpdateTime ≤ 28 :=
  getCore_age_bound env now
    (if s.refreshActive then
      { s with totalRequests := s.totalRequests + 1, lastAccessTime := now }
     else
      { s with totalRequests := s.totalRequests + 1, lastAccessTime := now,
               wakePending := true })
    tok h

/-- Witness for C1: a cache refreshed at time 0 and asked at time 40 is past
the hard expiry; the forced refresh succeeds, the new token is served, and
its age at return is 0 ≤ 28. -/
theorem c1_served_token_age_bound_witness :
    (GetXIsHuman (fun _ => (.ok "js", .ok "fresh")) 40
        ⟨"old", "oldjs", 0, 0, true, false, 0, 0, 0, 0, none⟩).2 = .ok "fresh"
    ∧ 40 - (GetXIsHuman (fun _ => (.ok "js", .ok "fresh")) 40
        ⟨"old", "oldjs", 0, 0, true, false, 0, 0, 0, 0, none⟩).1.lastUpdateTime ≤ 28 :=
  ⟨by decide,
   c1_served_token_age_bound (fun _ => (.ok "js", .ok "fresh")) 40
     ⟨"old", "oldjs", 0, 0, true, false, 0, 0, 0, 0, none⟩ "fresh" (by decide)⟩

/-- An attempt of the refresh procedure fails when its download step fails,
or its download step succeeds and its processing step fails. -/
def attemptFails (a : StepResult × StepResult) : Prop :=
  (∃ e, a.1 = .err e) ∨ (∃ js e, a.1 = .ok js ∧ a.2 = .err e)

/-- C8: with the manager's `maxRetries = 3`, when every attempt of the
two-step refresh procedure fails, the refresh returns an error, bumps the
failure counter, leaves everything else of the state — in particular the
cached token and the last-refresh timestamp — unchanged, and has slept the
linear back-off `1 s` then `2 s` between the three attempts. -/
theorem c8_refresh_all_attempts_fail (env : RefreshEnv) (now : Nat)
    (s : ManagerState) (hfail : ∀ i, attemptFails (env i)) :
    (refreshParametersNoLock env 3 now s).1
      = { s with failedRequests := s.failedRequests + 1 }
    ∧ (refreshParametersNoLock env 3 now s).2.1.isSome = true
    ∧ (refreshParametersNoLock env 3 now s).2.2 = [1, 2] := by
  have h1 := hfail 1
  have h2 := hfail 2
  have h3 := hfail 3
  unfold refreshParametersNoLock
  rcases h1 with ⟨e1, hd1⟩ | ⟨js1, e1, hd1, hp1⟩ <;>
    rcases h2 with ⟨e2, hd2⟩ | ⟨js2, e2, hd2, hp2⟩ <;>
      rcases h3 with ⟨e3, hd3⟩ | ⟨js3, e3, hd3, hp3⟩ <;>
        simp_all [refreshLoopGo, refreshFailExit]

/-- Witness for C8: an environment in which both steps always fail; starting
from a concrete state, the failed refresh leaves the token `"tok"` and its
timestamp 5 in place, bumps the failure counter, reports an error and slept
1 s then 2 s. -/
theorem c8_refresh_all_attempts_fail_witness :
    (∀ i, attemptFails ((fun _ : Nat => (StepResult.err "boom", StepResult.err "down")) i))
    ∧ (refreshParametersNoLock (fun _ : Nat => (StepResult.err "boom", StepResult.err "down")) 3 7
        ⟨"tok", "js", 5, 6, true, false, 1, 2, 3, 4, none⟩).1
      = { currentXIsHuman := "tok", jsCode := "js", lastUpdateTime := 5,
          lastAccessTime := 6, refreshActive := true, wakePending := false,
          totalRequests := 1, successRequests := 2, failedRequests := 3 + 1,
          cacheHits := 4, lastError := none }
    ∧ (refreshParametersNoLock (fun _ : Nat => (StepResult.err "boom", StepResult.err "down")) 3 7
        ⟨"tok", "js", 5, 6, true, false, 1, 2, 3, 4, none⟩).2.1.isSome = true
    ∧ (refreshParametersNoLock (fun _ : Nat => (StepResult.err "boom", StepResult.err "down")) 3 7
        ⟨"tok", "js", 5, 6, true, false, 1, 2, 3, 4, none⟩).2.2 = [1, 2] := by
  have h := c8_refresh_all_attempts_fail (fun _ : Nat => (StepResult.err "boom", StepResult.err "down")) 7
    ⟨"tok", "js", 5, 6, true, false, 1, 2, 3, 4, none⟩
    (fun _ => Or.inl ⟨"boom", rfl⟩)
  exact ⟨fun _ => Or.inl ⟨"boom", rfl⟩, h.1, h.2.1, h.2.2⟩
